import Mathlib

/-!
Shallow embedding of the two page components of the repository
(`src/frontend/src/pages/LoginPage.tsx` and
`src/frontend/src/pages/NotFoundPage.tsx`).

The login page holds four pieces of React state (email, password,
loading, error).  Its submit handler prevents the default form
submission, enters the loading state, clears the error, awaits the
authentication call, and then either navigates (replacing the history
entry) or records an error message; the `finally` block always resets
the loading flag.  We model the handler as a pure function from the
component state, the router location context and the outcome of the
`api.login` call to a record of everything the handler did.
-/

/-- Component state of `LoginPage`: the four `useState` hooks
(`email`, `password`, `loading`, `error`). -/
structure LoginState where
  email : String
  password : String
  loading : Bool
  error : Option String
deriving Repr, DecidableEq

/-- The `from` object inside the router navigation context,
holding an optional `pathname`. -/
structure FromContext where
  pathname : Option String
deriving Repr, DecidableEq

/-- The router navigation context `location.state`, holding an optional
`from` object. -/
structure LocationState where
  fromCtx : Option FromContext
deriving Repr, DecidableEq

/-- The optional chain `location.state?.from?.pathname`: `none` models a
missing link anywhere along the chain (absent state, absent `from`, or
absent `pathname`). -/
def locFromPathname (state : Option LocationState) : Option String :=
  (state.bind (·.fromCtx)).bind (·.pathname)

/-- JavaScript truthiness of a string value: every string except the
empty string is truthy. -/
def jsTruthy (s : String) : Bool := s ≠ ""

/-- JavaScript `a || b` where `a` is a possibly-undefined string:
yields `b` exactly when `a` is absent or falsy (empty). -/
def jsOrElse (a : Option String) (b : String) : String :=
  match a with
  | some s => if jsTruthy s then s else b
  | none => b

/-- Outcome of the awaited `api.login(email, password)` call: it either
resolves with a result carrying the merchant email, rejects with a
standard JavaScript `Error` carrying a message, or rejects with a value
that is not a standard `Error`. -/
inductive LoginOutcome where
  | success (merchantEmail : String)
  | errorRejection (message : String)
  | otherRejection
deriving Repr, DecidableEq

/-- A call to `navigate(path, { replace })`. -/
structure NavCall where
  path : String
  replace : Bool
deriving Repr, DecidableEq

/-- Everything an invocation of `handleSubmit` does: whether it called
`e.preventDefault()`, the component state at the moment `api.login` is
invoked, the component state after the handler (including the `finally`
block) has run, the navigation it performed (if any), and the console
output it produced (if any). -/
structure SubmitResult where
  defaultPrevented : Bool
  stateAtApiCall : LoginState
  finalState : LoginState
  nav : Option NavCall
  log : Option String
deriving Repr, DecidableEq

/-- The submit handler of `LoginPage`, translated statement by
statement: `e.preventDefault(); setLoading(true); setError(null);` then
`await api.login` with, on success, `const from =
location.state?.from?.pathname || "/orders"; console.log(...);
navigate(from, { replace: true });`, on a rejection `setError(err
instanceof Error ? err.message : "Login failed")`, and in every case the
`finally` block `setLoading(false)`. -/
def handleSubmit (s0 : LoginState) (loc : Option LocationState)
    (outcome : LoginOutcome) : SubmitResult :=
  let s1 : LoginState := { s0 with loading := true, error := none }
  match outcome with
  | .success merchantEmail =>
      let fromPath := jsOrElse (locFromPathname loc) "/orders"
      { defaultPrevented := true
        stateAtApiCall := s1
        finalState := { s1 with loading := false }
        nav := some { path := fromPath, replace := true }
        log := some ("Logged in as " ++ merchantEmail) }
  | .errorRejection message =>
      { defaultPrevented := true
        stateAtApiCall := s1
        finalState := { s1 with error := some message, loading := false }
        nav := none
        log := none }
  | .otherRejection =>
      { defaultPrevented := true
        stateAtApiCall := s1
        finalState := { s1 with error := some "Login failed", loading := false }
        nav := none
        log := none }

/-- The rendered submit button: `disabled={loading}` with label
`loading ? "Signing in..." : "Sign in"`. -/
structure ButtonView where
  disabled : Bool
  label : String
deriving Repr, DecidableEq

/-- Rendering of the submit button from the `loading` state. -/
def submitButtonView (loading : Bool) : ButtonView :=
  { disabled := loading
    label := if loading then "Signing in..." else "Sign in" }

/-- Rendering of the error region: the JSX guard `error && <div>...`
renders the region, containing the error text, exactly when the `error`
state is truthy (a non-null, non-empty string); `none` models an absent
region. -/
def errorRegionView (error : Option String) : Option String :=
  match error with
  | some s => if jsTruthy s then some s else none
  | none => none

/-- A rendered router `Link` element; `dest` is the value of its `to`
prop and `label` its visible text. -/
structure NavLink where
  dest : String
  label : String
deriving Repr, DecidableEq

/-- The `NotFoundPage` component: a constant (no props, no state) whose
rendered output contains exactly these two `Link` elements, in order. -/
def NotFoundPage : List NavLink :=
  [{ dest := "/orders", label := "Go to Orders" },
   { dest := "/", label := "Back to dashboard" }]

/-- C1: the claim states that on a successful login the handler
navigates to the supplied `location.state.from.pathname` whenever one
was supplied.  Counterexample: with the pathname supplied but equal to
the empty string, the handler navigates to `"/orders"`, not to the
supplied (empty) pathname, because the JavaScript `||` fallback fires
on every falsy value. -/
theorem C1_empty_pathname_counterexample :
    locFromPathname (some { fromCtx := some { pathname := some "" } }) = some "" ∧
    (handleSubmit { email := "a@b.c", password := "pw", loading := false, error := none }
        (some { fromCtx := some { pathname := some "" } })
        (.success "a@b.c")).nav = some { path := "/orders", replace := true } ∧
    ("/orders" : String) ≠ "" := by
  refine ⟨rfl, rfl, ?_⟩
  decide

/-- C1 (amended): on a successful login the handler navigates to the
pathname supplied in the incoming navigation context whenever a
non-empty (truthy) one was supplied, and to the default path
`"/orders"` when no such context is present. -/
theorem C1_success_redirect (s0 : LoginState) (loc : Option LocationState)
    (m : String) :
    (∀ p : String, locFromPathname loc = some p → p ≠ "" →
      (handleSubmit s0 loc (.success m)).nav = some { path := p, replace := true }) ∧
    (locFromPathname loc = none →
      (handleSubmit s0 loc (.success m)).nav = some { path := "/orders", replace := true }) := by
  constructor
  · intro p hp hne
    simp [handleSubmit, jsOrElse, hp, jsTruthy, hne]
  · intro hp
    simp [handleSubmit, jsOrElse, hp]

/-- Witness for `C1_success_redirect` at concrete inputs: a supplied
pathname `"/dashboard/settings"` is followed, and an absent context
falls back to `"/orders"`. -/
theorem C1_success_redirect_witness :
    (handleSubmit { email := "a@b.c", password := "pw", loading := false, error := none }
        (some { fromCtx := some { pathname := some "/dashboard/settings" } })
        (.success "a@b.c")).nav = some { path := "/dashboard/settings", replace := true } ∧
    (handleSubmit { email := "a@b.c", password := "pw", loading := false, error := none }
        none (.success "a@b.c")).nav = some { path := "/orders", replace := true } :=
  ⟨(C1_success_redirect { email := "a@b.c", password := "pw", loading := false, error := none }
      (some { fromCtx := some { pathname := some "/dashboard/settings" } }) "a@b.c").1
      "/dashboard/settings" rfl (by decide),
   (C1_success_redirect { email := "a@b.c", password := "pw", loading := false, error := none }
      none "a@b.c").2 rfl⟩

/-- C2: when the authentication call rejects with a standard `Error`
whose message is `"Invalid credentials"`, no navigation happens (the
form remains on screen), the error state holds `"Invalid credentials"`
and the error region visibly renders that text, and the loading flag is
reset so the submit button is enabled again. -/
theorem C2_invalid_credentials (s0 : LoginState) (loc : Option LocationState) :
    (handleSubmit s0 loc (.errorRejection "Invalid credentials")).nav = none ∧
    (handleSubmit s0 loc (.errorRejection "Invalid credentials")).finalState.error
      = some "Invalid credentials" ∧
    errorRegionView
        (handleSubmit s0 loc (.errorRejection "Invalid credentials")).finalState.error
      = some "Invalid credentials" ∧
    (handleSubmit s0 loc (.errorRejection "Invalid credentials")).finalState.loading = false ∧
    (submitButtonView
        (handleSubmit s0 loc (.errorRejection "Invalid credentials")).finalState.loading).disabled
      = false := by
  refine ⟨rfl, rfl, ?_, rfl, rfl⟩
  simp [handleSubmit, errorRegionView, jsTruthy]

/-- C3: when the authentication call rejects with a value that is not a
standard `Error`, the error state is set to the fixed fallback text
`"Login failed"`. -/
theorem C3_non_error_fallback (s0 : LoginState) (loc : Option LocationState) :
    (handleSubmit s0 loc .otherRejection).finalState.error = some "Login failed" := rfl

/-- C4: every invocation of the submit handler prevents the default
form submission, and at the moment the authentication collaborator is
called the loading flag has been set to `true` and the error state has
been cleared to `null`. -/
theorem C4_pre_call_state (s0 : LoginState) (loc : Option LocationState)
    (o : LoginOutcome) :
    (handleSubmit s0 loc o).defaultPrevented = true ∧
    (handleSubmit s0 loc o).stateAtApiCall.loading = true ∧
    (handleSubmit s0 loc o).stateAtApiCall.error = none := by
  cases o <;> exact ⟨rfl, rfl, rfl⟩

/-- C5: on every failed submission (standard-`Error` rejection or
non-`Error` rejection) the email and password field values are left
unchanged by the submit handler. -/
theorem C5_fields_intact (s0 : LoginState) (loc : Option LocationState)
    (msg : String) :
    (handleSubmit s0 loc (.errorRejection msg)).finalState.email = s0.email ∧
    (handleSubmit s0 loc (.errorRejection msg)).finalState.password = s0.password ∧
    (handleSubmit s0 loc .otherRejection).finalState.email = s0.email ∧
    (handleSubmit s0 loc .otherRejection).finalState.password = s0.password :=
  ⟨rfl, rfl, rfl, rfl⟩

/-- C6: the submit button is disabled with the progress label
`"Signing in..."` exactly when the loading flag is set, otherwise it is
enabled with the label `"Sign in"`; and after the submit handler
resolves (success or failure) the loading flag is `false`, so the
button renders enabled with its normal label. -/
theorem C6_button_state (l : Bool) (s0 : LoginState) (loc : Option LocationState)
    (o : LoginOutcome) :
    (((submitButtonView l).disabled = true ∧ (submitButtonView l).label = "Signing in...")
      ↔ l = true) ∧
    (((submitButtonView l).disabled = false ∧ (submitButtonView l).label = "Sign in")
      ↔ l = false) ∧
    (handleSubmit s0 loc o).finalState.loading = false ∧
    submitButtonView (handleSubmit s0 loc o).finalState.loading
      = { disabled := false, label := "Sign in" } := by
  refine ⟨?_, ?_, ?_, ?_⟩
  · cases l <;> simp [submitButtonView]
  · cases l <;> simp [submitButtonView]
  · cases o <;> rfl
  · cases o <;> rfl

/-- C7: every successful login's navigation is performed with
replace-current-history-entry semantics (`replace: true`). -/
theorem C7_replace_semantics (s0 : LoginState) (loc : Option LocationState)
    (m : String) :
    ((handleSubmit s0 loc (.success m)).nav.map (·.replace)) = some true := rfl

/-- C8: the not-found view is a constant (it takes no inputs) and
always renders exactly two navigation links, the first pointing to
`"/orders"` and the second to `"/"`. -/
theorem C8_two_links :
    NotFoundPage.length = 2 ∧ NotFoundPage.map (·.dest) = ["/orders", "/"] := by
  constructor <;> rfl

/-- C9: when the navigation context supplies a `from.pathname` that is
present but is the empty string (the falsy string value), the handler
navigates to the default path `"/orders"` rather than to the supplied
empty path. -/
theorem C9_falsy_pathname (s0 : LoginState) (loc : Option LocationState)
    (m : String) (h : locFromPathname loc = some "") :
    (handleSubmit s0 loc (.success m)).nav
      = some { path := "/orders", replace := true } := by
  simp [handleSubmit, jsOrElse, h, jsTruthy]

/-- Witness for `C9_falsy_pathname` at a concrete input with an
explicitly supplied empty pathname. -/
theorem C9_falsy_pathname_witness :
    (handleSubmit { email := "a@b.c", password := "pw", loading := false, error := none }
        (some { fromCtx := some { pathname := some "" } })
        (.success "a@b.c")).nav = some { path := "/orders", replace := true } :=
  C9_falsy_pathname { email := "a@b.c", password := "pw", loading := false, error := none }
    (some { fromCtx := some { pathname := some "" } }) "a@b.c" rfl

/-- C10: when the authentication call rejects with a standard `Error`
whose message is the empty string, the error state is set to the empty
string yet the error display region is not rendered at all, because the
JSX guard treats the empty string as falsy. -/
theorem C10_empty_message_invisible (s0 : LoginState) (loc : Option LocationState) :
    (handleSubmit s0 loc (.errorRejection "")).finalState.error = some "" ∧
    errorRegionView (handleSubmit s0 loc (.errorRejection "")).finalState.error = none := by
  refine ⟨rfl, ?_⟩
  simp [handleSubmit, errorRegionView, jsTruthy]
